import Mathlib

/-!
Shallow embedding of the WebAct action-dispatch and prompt-building core
(action_manager.py and prompt_manager.py), together with theorems settling
the frozen claims about it.

Conventions of the embedding:
- Browser primitives (click, hover, fill, evaluate, ...) are external; an
  environment of type Prim to Except String Unit decides, for each primitive
  invocation, whether it succeeds or raises, and with which message.
- A method call on a missing handle (Python None) raises an attribute error
  before any primitive is invoked, mirroring NoneType attribute access.
- Python string truthiness (None and the empty string are falsy) is modelled
  by pyTruthyStr; f-string rendering of an optional string by pyStr.
- Fallible flow is explicit: perform_action returns a PerformResult carrying
  the returned string, the updated history, the trace of primitive
  invocations, and a flag recording whether the try block completed without
  an exception.
-/

namespace WebAct

/-- Primitive calls on the browser automation layer, as invoked by
ActionManager.perform_action. Each constructor records the argument the
source passes to the corresponding method. -/
inductive Prim where
  | click : Prim
  | hover : Prim
  | fill : String → Prim
  | evaluate : String → Prim
  | keyboardPress : String → Prim
  | newPage : Prim
  | close : Prim
  | goBack : Prim
  | goForward : Prim
  | goto : String → Prim
  | press : String → Prim
  | selectOption : String → Prim
deriving DecidableEq, Repr

/-- The target_element dictionary argument of perform_action: an optional
handle under key selector and an optional description string. An absent or
falsy (empty) dictionary is modelled by Option.none at the call site. -/
structure TargetElement where
  selector : Option Unit
  description : Option String
deriving DecidableEq, Repr

/-- Python truthiness of an optional string: None and the empty string are
falsy. -/
def pyTruthyStr (v : Option String) : Bool :=
  match v with
  | none => false
  | some s => !(s == "")

/-- Python f-string rendering of an optional string: None renders as the
text None. -/
def pyStr (v : Option String) : String :=
  match v with
  | none => "None"
  | some s => s

/-- Python `s or dflt` for a string s. -/
def pyOr (s dflt : String) : String :=
  if s == "" then dflt else s

/-- Python `v or dflt` for an optional string v. -/
def pyOrOpt (v : Option String) (dflt : String) : String :=
  match v with
  | none => dflt
  | some s => if s == "" then dflt else s

/-- Message of the AttributeError raised by a method access on None. -/
def noneAttrMsg (attr : String) : String :=
  "\x27NoneType\x27 object has no attribute \x27" ++ attr ++ "\x27"

/-- Invoking method attr (carrying primitive p) on the selector: on a missing
handle an attribute error is raised and no primitive runs; on a present
handle the primitive is invoked (recorded in the trace) and may raise as the
environment decides. Returns the trace of invoked primitives and the raised
message, if any. -/
def callOn (env : Prim → Except String Unit) (selector : Option Unit)
    (attr : String) (p : Prim) : List Prim × Option String :=
  match selector with
  | none => ([], some (noneAttrMsg attr))
  | some _ =>
    match env p with
    | Except.ok _ => ([p], none)
    | Except.error e => ([p], some e)

/-- The body of the try block of ActionManager.perform_action: the if/elif
dispatch chain, in source order. Logging calls are effect-free here. The
result is the trace of primitive invocations and the exception raised, if
any (including the ValueError of the final else branch). -/
def tryBody (env : Prim → Except String Unit) (selector : Option Unit)
    (action_name : Option String) (value : Option String) :
    List Prim × Option String :=
  if action_name == some "CLICK" && selector.isSome then
    callOn env selector "click" Prim.click
  else if action_name == some "HOVER" && selector.isSome then
    callOn env selector "hover" Prim.hover
  else if action_name == some "TYPE" && selector.isSome && pyTruthyStr value then
    callOn env selector "fill" (Prim.fill (pyStr value))
  else if action_name == some "SCROLL UP" then
    callOn env selector "evaluate" (Prim.evaluate "window.scrollBy(0, -window.innerHeight / 2)")
  else if action_name == some "SCROLL DOWN" then
    callOn env selector "evaluate" (Prim.evaluate "window.scrollBy(0, window.innerHeight / 2)")
  else if action_name == some "PRESS HOME" then
    callOn env selector "keyboard" (Prim.keyboardPress "Home")
  else if action_name == some "PRESS END" then
    callOn env selector "keyboard" (Prim.keyboardPress "End")
  else if action_name == some "PRESS PAGEUP" then
    callOn env selector "keyboard" (Prim.keyboardPress "PageUp")
  else if action_name == some "PRESS PAGEDOWN" then
    callOn env selector "keyboard" (Prim.keyboardPress "PageDown")
  else if action_name == some "NEW TAB" then
    callOn env selector "context" Prim.newPage
  else if action_name == some "CLOSE TAB" then
    callOn env selector "close" Prim.close
  else if action_name == some "GO BACK" then
    callOn env selector "go_back" Prim.goBack
  else if action_name == some "GO FORWARD" then
    callOn env selector "go_forward" Prim.goForward
  else if action_name == some "GOTO" && pyTruthyStr value then
    callOn env selector "goto" (Prim.goto (pyStr value))
  else if action_name == some "PRESS ENTER" && selector.isSome then
    callOn env selector "press" (Prim.press "Enter")
  else if action_name == some "SELECT" && selector.isSome && pyTruthyStr value then
    callOn env selector "select_option" (Prim.selectOption (pyStr value))
  else if action_name == some "TERMINATE" then
    ([], none)
  else if action_name == some "NONE" then
    ([], none)
  else if action_name == some "SAY" && pyTruthyStr value then
    ([], none)
  else if action_name == some "MEMORIZE" && pyTruthyStr value then
    ([], none)
  else
    ([], some ("Unsupported or improperly specified action: " ++ pyStr action_name))

/-- Result of one perform_action call: the returned string, the history
after the call, the trace of primitive invocations, and whether the try
block completed without an exception. -/
structure PerformResult where
  ret : String
  taken_actions : List String
  calls : List Prim
  ok : Bool
deriving DecidableEq, Repr

/-- The selector local of perform_action: the selector entry of a truthy
target_element, else None. -/
def selectorOf (target_element : Option TargetElement) : Option Unit :=
  match target_element with
  | some te => te.selector
  | none => none

/-- The element_repr local of perform_action after the initial rebinding:
for a truthy target_element, target_element.get with the passed element_repr
as default; else the passed element_repr. -/
def reprOf (target_element : Option TargetElement) (element_repr : String) : String :=
  match target_element with
  | some te => te.description.getD element_repr
  | none => element_repr

/-- ActionManager.perform_action over the history taken_actions. On normal
completion of the dispatch the action summary is appended to the history and
returned; on an exception the error message is returned and the history is
left as it was. -/
def perform_action (env : Prim → Except String Unit) (taken_actions : List String)
    (target_element : Option TargetElement) (action_name : Option String)
    (value : Option String) (element_repr : String) : PerformResult :=
  let selector := selectorOf target_element
  let elemRepr := reprOf target_element element_repr
  match tryBody env selector action_name value with
  | (calls, none) =>
    let action_summary :=
      pyStr action_name ++ ": " ++ pyOr elemRepr "No Element" ++ " -> " ++
        pyOrOpt value "No Value"
    { ret := action_summary
      taken_actions := taken_actions ++ [action_summary]
      calls := calls
      ok := true }
  | (calls, some e) =>
    { ret := "Error performing " ++ pyStr action_name ++ " on " ++ elemRepr ++ ": " ++ e
      taken_actions := taken_actions
      calls := calls
      ok := false }

/-- Default action_space list from ActionManager.init, used when the
configuration supplies no action_space. -/
def default_action_space : List String :=
  ["CLICK", "PRESS ENTER", "HOVER", "SCROLL UP",
   "SCROLL DOWN", "NEW TAB", "CLOSE TAB",
   "GO BACK", "GO FORWARD", "TERMINATE",
   "SELECT", "TYPE", "GOTO", "MEMORIZE"]

/-- The no_value_op list from ActionManager.init. -/
def no_value_op : List String :=
  ["CLICK", "PRESS ENTER", "HOVER", "SCROLL UP", "SCROLL DOWN", "NEW TAB",
   "CLOSE TAB", "PRESS HOME", "PRESS END", "PRESS PAGEUP", "PRESS PAGEDOWN",
   "GO BACK", "GO FORWARD", "TERMINATE", "NONE"]

/-- The with_value_op list from ActionManager.init. -/
def with_value_op : List String :=
  ["SELECT", "TYPE", "GOTO", "MEMORIZE", "SAY"]

/-- The no_element_op list from ActionManager.init. -/
def no_element_op : List String :=
  ["PRESS ENTER", "SCROLL UP", "SCROLL DOWN", "NEW TAB", "CLOSE TAB",
   "GO BACK", "GOTO", "PRESS HOME", "PRESS END", "PRESS PAGEUP",
   "PRESS PAGEDOWN", "GO FORWARD", "TERMINATE", "NONE", "MEMORIZE", "SAY"]

/-- Python values, as far as update_action_space inspects them: strings,
integers, booleans, None and lists. -/
inductive PyVal where
  | str : String → PyVal
  | int : Int → PyVal
  | boolean : Bool → PyVal
  | null : PyVal
  | list : List PyVal → PyVal
deriving Repr

/-- isinstance(v, str). -/
def isStrVal : PyVal → Bool
  | PyVal.str _ => true
  | _ => false

/-- The string contents of a list of Python values, dropping non-strings
(used only when all elements are strings). -/
def strValsOf : List PyVal → List String
  | [] => []
  | PyVal.str s :: rest => s :: strValsOf rest
  | _ :: rest => strValsOf rest

/-- ActionManager.update_action_space over the current action_space: the
new value replaces the action space exactly when it is a list whose elements
are all strings; otherwise the old action space is kept and a warning is
logged. -/
def update_action_space (action_space : List String) (new_actions : PyVal) :
    List String :=
  match new_actions with
  | PyVal.list xs => if xs.all isStrVal then strValsOf xs else action_space
  | _ => action_space

/-- ActionManager.get_action_space. -/
def get_action_space (action_space : List String) : List String :=
  action_space

/-- A file system state: the set of existing directories and the files,
newest write first (a read takes the first match). -/
structure FS where
  dirs : List String
  files : List (String × String)
deriving DecidableEq, Repr

/-- Reading the contents of a path. -/
def FS.read (fs : FS) (path : String) : Option String :=
  (fs.files.find? (fun pr => pr.1 == path)).map (fun pr => pr.2)

/-- Contents written by the save loop: each taken action followed by a
newline, in order, onto a file opened for (truncating) write. -/
def writeLines (taken_actions : List String) : String :=
  taken_actions.foldl (fun acc action => acc ++ (action ++ "\n")) ""

/-- ActionManager.save_action_history: resolve the save directory from the
configuration (config basic save_file_dir, default seeact_agent_files),
create it if absent, and write the history one action per line to the named
file under it. -/
def save_action_history (config_save_dir : Option String) (fs : FS)
    (taken_actions : List String) (filename : String) : FS :=
  let directory := config_save_dir.getD "seeact_agent_files"
  let fs1 :=
    if fs.dirs.contains directory then fs
    else { fs with dirs := fs.dirs ++ [directory] }
  let history_path := directory ++ "/" ++ filename
  { fs1 with files := (history_path, writeLines taken_actions) :: fs1.files }

/-- ActionManager.clear_action_history on the in-memory history. -/
def clear_action_history (_taken_actions : List String) : List String :=
  []

/-- The named prompt parts held by PromptManager.prompts. -/
structure Prompts where
  system_prompt : String
  action_space : String
  question_description : String
  referring_description : String
  element_format : String
  action_format : String
  value_format : String
deriving DecidableEq, Repr

/-- PromptManager.initialize_prompts: the initial prompt parts, transcribed
verbatim (trailing spaces of the triple-quoted source lines included). -/
def initialize_prompts : Prompts :=
  { system_prompt :=
      "You are assisting humans in web navigation tasks step by step. \n            At each stage, you can see the webpage by a screenshot and know the previous actions \n            that have been executed for this task. You need to decide on the next action to take."
    action_space :=
      "\nHere are the descriptions of all allowed actions:\n\nNo Value Operations:\n- CLICK: Click on a webpage element using the mouse.\n- HOVER: Move the mouse over a webpage element without clicking.\n- PRESS ENTER: Press the Enter key to submit or confirm an input.\n- SCROLL UP: Scroll up on the page.\n- SCROLL DOWN: Scroll down on the page.\n- PRESS HOME: Go to the top of the page.\n- PRESS END: Go to the bottom of the page.\n- PRESS PAGEUP: Scroll up by one page.\n- PRESS PAGEDOWN: Scroll down by one page.\n- CLOSE TAB: Close the current tab.\n- NEW TAB: Open a new tab.\n- GO BACK: Navigate to the previous page.\n- GO FORWARD: Navigate to the next page.\n- TERMINATE: End the task if completed or if the task is risky.\n- NONE: Skip an action if unnecessary at this stage.\n\nWith Value Operations:\n- SELECT: Choose an option from a dropdown menu.\n- TYPE: Enter text into a text box.\n- GOTO: Navigate to a specific URL.\n- SAY: Output information to the user.\n- MEMORIZE: Store content for reference.\n"
    question_description :=
      "The screenshot below shows the webpage. Think through each step \n            before deciding on the next action. Clearly outline the element to interact with, \n            its location, and the action to perform. Follow these rules:\n1. Issue only one valid action per step.\n2. Handle dropdowns directly; options will be listed.\n3. Avoid account creation, login, or final submissions.\n4. Terminate if task is complete or requires potentially harmful actions.\n5. Interact with floating banners, closing them if they cover content.\n6. Type or select inputs directly, bypassing clicks when possible.\n7. Avoid repeating the same failed action consecutively.\n8. Ignore minor banners (e.g., cookie policies).\n9. Press ENTER after typing in search or text inputs.\n10. Choose the least obstructed clickable button if options are identical."
    referring_description :=
      "(Reiteration)\nReiterate your next target element, its location, and the corresponding action.\n\n(Multi-choice Question)\nBelow is a multi-choice question with elements arranged by their height on the page, \nfrom top to bottom and left to right. From the screenshot, locate and match each choice \nwith its corresponding element by examining the content and HTML details. Then choose the \nmatching element based on your target action."
    element_format :=
      "(Final Answer)\nConclude with the following format for the target element:\n\nELEMENT: The uppercase letter representing your choice."
    action_format :=
      "ACTION: Choose an action from allowed actions."
    value_format :=
      "VALUE: Provide additional input as needed based on ACTION (if not needed, write \"None\")" }

/-- Python repr of a string, for strings without embedded quotes or
escapes (the only shape the prompt pipeline produces). -/
def pyReprStr (s : String) : String :=
  "\x27" ++ s ++ "\x27"

/-- Python f-string rendering of an optional list of strings, as applied to
the previous-actions argument: None renders as the text None, a list as its
Python repr. -/
def pyStrList (v : Option (List String)) : String :=
  match v with
  | none => "None"
  | some l => "[" ++ String.intercalate ", " (l.map pyReprStr) ++ "]"

/-- Python truthiness of an optional list: None and the empty list are
falsy. -/
def pyTruthyList (v : Option (List String)) : Bool :=
  match v with
  | none => false
  | some [] => false
  | some (_ :: _) => true

/-- PromptManager.generate_new_query_prompt: one formatted string combining
system prompt, task, previous actions and question description. -/
def generate_new_query_prompt (system_prompt : String) (task : Option String)
    (previous_actions : Option (List String)) (question_description : String) :
    List String :=
  [system_prompt ++ "\nTask: " ++ pyStr task ++ "\nPrevious Actions: " ++
    pyStrList previous_actions ++ "\n" ++ question_description]

/-- PromptManager.generate_new_referring_prompt: the element-grounding
segment; a falsy choices argument renders the No choices available
placeholder, a non-empty list is newline-joined in order. -/
def generate_new_referring_prompt (referring_description : String)
    (element_format : String) (action_format : String) (value_format : String)
    (choices : Option (List String)) : String :=
  let choices_str :=
    if pyTruthyList choices then String.intercalate "\n" (choices.getD [])
    else "No choices available"
  referring_description ++ "\nChoices:\n" ++ choices_str ++ "\n\n" ++
    element_format ++ "\n" ++ action_format ++ "\n" ++ value_format

/-- PromptManager.generate_prompt over the prompt parts: the query segment
followed by the referring segment. -/
def generate_prompt (prompts : Prompts) (task : Option String)
    (previous : Option (List String)) (choices : Option (List String)) :
    List String :=
  generate_new_query_prompt (prompts.system_prompt ++ "\n" ++ prompts.action_space)
      task previous prompts.question_description ++
    [generate_new_referring_prompt prompts.referring_description
      prompts.element_format prompts.action_format prompts.value_format choices]

/-- List membership check used when stating which action names the dispatch
chain of perform_action handles by name. -/
def handled_actions : List String :=
  ["CLICK", "HOVER", "TYPE", "SCROLL UP", "SCROLL DOWN", "PRESS HOME",
   "PRESS END", "PRESS PAGEUP", "PRESS PAGEDOWN", "NEW TAB", "CLOSE TAB",
   "GO BACK", "GO FORWARD", "GOTO", "PRESS ENTER", "SELECT", "TERMINATE",
   "NONE", "SAY", "MEMORIZE"]

/-- isinstance(v, list) with all elements strings: the validation of
update_action_space. -/
def isListOfStrings : PyVal → Bool
  | PyVal.list xs => xs.all isStrVal
  | _ => false

/-- An environment in which every primitive invocation succeeds. -/
def envAllOk : Prim → Except String Unit := fun _ => Except.ok ()

/-- Splitting a character sequence at newlines, keeping the (possibly
empty) trailing segment: the specification-side notion of the lines of a
text file. -/
def splitNl : List Char → List (List Char)
  | [] => [[]]
  | c :: cs =>
    match splitNl cs with
    | [] => [[]]
    | l :: ls => if c = '\n' then [] :: l :: ls else (c :: l) :: ls

/-- The lines of a file whose every line is newline-terminated: all
newline-separated segments except the empty trailing one. -/
def fileLines (s : String) : List String :=
  ((splitNl s.data).dropLast).map String.mk

/-- A concrete three-action history used to instantiate the persistence
theorem. -/
def demoHistory : List String :=
  ["CLICK: button -> No Value", "TYPE: search box -> iphone 15",
   "SCROLL DOWN: No Element -> No Value"]

/-- The trace of primitive invocations of perform_action is exactly the
trace of its try block. -/
theorem perform_action_calls (env : Prim → Except String Unit)
    (taken : List String) (te : Option TargetElement) (an : Option String)
    (v : Option String) (er : String) :
    (perform_action env taken te an v er).calls =
      (tryBody env (selectorOf te) an v).1 := by
  rcases h : tryBody env (selectorOf te) an v with ⟨calls, e⟩
  cases e <;> simp [perform_action, h]

/-- The try block completes without an exception exactly when its second
component is empty. -/
theorem perform_action_ok (env : Prim → Except String Unit)
    (taken : List String) (te : Option TargetElement) (an : Option String)
    (v : Option String) (er : String) :
    (perform_action env taken te an v er).ok =
      ((tryBody env (selectorOf te) an v).2 == none) := by
  rcases h : tryBody env (selectorOf te) an v with ⟨calls, e⟩
  cases e <;> simp [perform_action, h]

/-- Invoking a method on a present handle records exactly that primitive. -/
theorem callOn_some_fst (env : Prim → Except String Unit) (attr : String)
    (p : Prim) : (callOn env (some ()) attr p).1 = [p] := by
  unfold callOn
  cases env p <;> rfl

/-- Claim C1, counterexample: a failed perform_action attempt (here CLICK
with no target, which raises the unsupported-action ValueError) returns an
error-summary string but appends nothing to taken_actions, so failed
attempts are dropped from the action history, contrary to the claim. -/
theorem C1_counterexample :
    (perform_action envAllOk [] none (some "CLICK") none "").ok = false ∧
    (perform_action envAllOk [] none (some "CLICK") none "").ret =
      "Error performing CLICK on : Unsupported or improperly specified action: CLICK" ∧
    (perform_action envAllOk [] none (some "CLICK") none "").taken_actions = [] := by
  decide

/-- Claim C1 (amended): a successful perform_action attempt appends exactly
the returned summary string, of the documented shape, to taken_actions; a
failed attempt returns (but does not append) an error-summary string
carrying the exception text. -/
theorem C1_success_appends_failure_returns (env : Prim → Except String Unit)
    (taken : List String) (te : Option TargetElement) (an : Option String)
    (v : Option String) (er : String) :
    ((perform_action env taken te an v er).ok = true →
      (perform_action env taken te an v er).ret =
        pyStr an ++ ": " ++ pyOr (reprOf te er) "No Element" ++ " -> " ++
          pyOrOpt v "No Value" ∧
      (perform_action env taken te an v er).taken_actions =
        taken ++ [(perform_action env taken te an v er).ret]) ∧
    ((perform_action env taken te an v er).ok = false →
      (perform_action env taken te an v er).taken_actions = taken ∧
      ∃ e, (perform_action env taken te an v er).ret =
        "Error performing " ++ pyStr an ++ " on " ++ reprOf te er ++ ": " ++ e) := by
  rcases h : tryBody env (selectorOf te) an v with ⟨calls, e⟩
  cases e <;> simp [perform_action, h]

/-- Witness for the amended claim C1 at a concrete successful input. -/
theorem C1_success_appends_failure_returns_witness :
    (perform_action envAllOk [] none (some "TERMINATE") none "").ok = true ∧
    ((perform_action envAllOk [] none (some "TERMINATE") none "").ret =
      pyStr (some "TERMINATE") ++ ": " ++ pyOr (reprOf none "") "No Element" ++ " -> " ++
        pyOrOpt none "No Value" ∧
     (perform_action envAllOk [] none (some "TERMINATE") none "").taken_actions =
      [] ++ [(perform_action envAllOk [] none (some "TERMINATE") none "").ret]) := by
  refine ⟨by decide, ?_⟩
  exact (C1_success_appends_failure_returns envAllOk [] none (some "TERMINATE") none "").1
    (by decide)

/-- Claim C2, counterexample: SAY is in the with-value list but absent from
the default master action-space list, refuting the subset part of the
claim. -/
theorem C2_counterexample :
    with_value_op.contains "SAY" = true ∧
    default_action_space.contains "SAY" = false := by
  decide

/-- Claim C2 (amended): the no-value and with-value lists are disjoint, and
every value-bearing action except SAY is in the default master action-space
list; SAY alone is value-bearing yet absent from it. -/
theorem C2_taxonomy_lists :
    no_value_op.all (fun a => !(with_value_op.contains a)) = true ∧
    with_value_op.all (fun a => a == "SAY" || default_action_space.contains a) = true ∧
    default_action_space.contains "SAY" = false := by
  decide

/-- Claim C4: SCROLL UP is declared element-free in no_element_op, yet
perform_action with target_element None dereferences the None selector,
raising an AttributeError that is caught and returned as an error record;
no primitive runs and no normal summary is produced. This evaluates the
code at the failing input of the code-bug report. -/
theorem C4_scroll_up_without_target_errors :
    no_element_op.contains "SCROLL UP" = true ∧
    (perform_action envAllOk [] none (some "SCROLL UP") none "").ok = false ∧
    (perform_action envAllOk [] none (some "SCROLL UP") none "").calls = [] ∧
    (perform_action envAllOk [] none (some "SCROLL UP") none "").ret =
      "Error performing SCROLL UP on : " ++ noneAttrMsg "evaluate" := by
  decide

/-- The string contents of a mapped string list are the list itself. -/
theorem strValsOf_map_str (ss : List String) :
    strValsOf (ss.map PyVal.str) = ss := by
  induction ss with
  | nil => rfl
  | cons s rest ih => simp [strValsOf, ih]

/-- A mapped string list passes the all-strings validation. -/
theorem all_isStrVal_map_str (ss : List String) :
    (ss.map PyVal.str).all isStrVal = true := by
  induction ss with
  | nil => rfl
  | cons s rest ih => simp [isStrVal, ih]

/-- Claim C7: a non-list value, or a list containing a non-string element,
leaves the action space exactly as it was (the override is rejected whole),
while a list of strings replaces it. -/
theorem C7_update_action_space_validation (S : List String) :
    (∀ v : PyVal, isListOfStrings v = false →
      get_action_space (update_action_space S v) = get_action_space S) ∧
    (∀ ss : List String,
      get_action_space (update_action_space S (PyVal.list (ss.map PyVal.str))) = ss) := by
  constructor
  · intro v hv
    cases v with
    | list xs =>
        simp only [isListOfStrings] at hv
        simp [update_action_space, get_action_space, hv]
    | str s => rfl
    | int n => rfl
    | boolean b => rfl
    | null => rfl
  · intro ss
    simp [update_action_space, get_action_space, all_isStrVal_map_str, strValsOf_map_str]

/-- Witness for claim C7 at a concrete rejected override. -/
theorem C7_update_action_space_validation_witness :
    isListOfStrings (PyVal.list [PyVal.str "CLICK", PyVal.int 7]) = false ∧
    get_action_space (update_action_space default_action_space
        (PyVal.list [PyVal.str "CLICK", PyVal.int 7])) =
      get_action_space default_action_space := by
  refine ⟨rfl, ?_⟩
  exact (C7_update_action_space_validation default_action_space).1 _ rfl

/-- Claim C10: perform_action is append-only on the history: the prior
entries survive unchanged and in order, a completed dispatch appends
exactly the returned summary, and a dispatch whose branch raised appends
nothing. -/
theorem C10_history_append_only (env : Prim → Except String Unit)
    (taken : List String) (te : Option TargetElement) (an : Option String)
    (v : Option String) (er : String) :
    (perform_action env taken te an v er).taken_actions =
      taken ++ (if (perform_action env taken te an v er).ok then
        [(perform_action env taken te an v er).ret] else []) := by
  rcases h : tryBody env (selectorOf te) an v with ⟨calls, e⟩
  cases e <;> simp [perform_action, h]

/-- A name outside the handled action set drives the dispatch chain of
perform_action into its final else branch, which raises the ValueError. -/
theorem tryBody_unknown (env : Prim → Except String Unit) (sel : Option Unit)
    (s : String) (v : Option String)
    (h : handled_actions.contains s = false) :
    tryBody env sel (some s) v =
      ([], some ("Unsupported or improperly specified action: " ++ s)) := by
  simp [handled_actions] at h
  obtain ⟨h1, h2, h3, h4, h5, h6, h7, h8, h9, h10, h11, h12, h13, h14, h15, h16, h17,
    h18, h19, h20⟩ := h
  simp [tryBody, pyStr, h1, h2, h3, h4, h5, h6, h7, h8, h9, h10, h11, h12, h13, h14,
    h15, h16, h17, h18, h19, h20]

/-- Claim C3: perform_action is total (by construction of the embedding it
returns a PerformResult on every input, propagating nothing). Whatever the
try block raised is returned as an error string carrying the exception
text; an action name outside the dispatch chain, a value-bearing action
with a missing or empty value, an element-requiring action (CLICK, HOVER,
TYPE, PRESS ENTER, SELECT) without a resolved target, and in particular
CLICK with target_element None, all return an error string carrying the
unsupported-or-improperly-specified classification, without throwing. -/
theorem C3_no_exception_escape (env : Prim → Except String Unit)
    (taken : List String) (te : Option TargetElement) (an : Option String)
    (v : Option String) (er : String) :
    (∀ calls e, tryBody env (selectorOf te) an v = (calls, some e) →
        (perform_action env taken te an v er).ok = false ∧
        (perform_action env taken te an v er).ret =
          "Error performing " ++ pyStr an ++ " on " ++ reprOf te er ++ ": " ++ e) ∧
    (∀ s, an = some s → handled_actions.contains s = false →
        ∃ p, (perform_action env taken te an v er).ret =
          p ++ ("Unsupported or improperly specified action: " ++ s)) ∧
    (∀ a, a ∈ with_value_op → pyTruthyStr v = false →
        (perform_action env taken te (some a) v er).ok = false ∧
        (perform_action env taken te (some a) v er).ret =
          "Error performing " ++ a ++ " on " ++ reprOf te er ++ ": " ++
            ("Unsupported or improperly specified action: " ++ a)) ∧
    (selectorOf te = none →
      ∀ a, a ∈ (["CLICK", "HOVER", "TYPE", "PRESS ENTER", "SELECT"] : List String) →
        (perform_action env taken te (some a) v er).ok = false ∧
        (perform_action env taken te (some a) v er).ret =
          "Error performing " ++ a ++ " on " ++ reprOf te er ++ ": " ++
            ("Unsupported or improperly specified action: " ++ a)) ∧
    (te = none → an = some "CLICK" →
        (perform_action env taken te an v er).ok = false ∧
        (perform_action env taken te an v er).taken_actions = taken ∧
        ∃ p q, (perform_action env taken te an v er).ret =
          p ++ "Unsupported or improperly specified action" ++ q) := by
  refine ⟨?_, ?_, ?_, ?_, ?_⟩
  · intro calls e h
    simp [perform_action, h]
  · rintro s rfl h
    have ht := tryBody_unknown env (selectorOf te) s v h
    refine ⟨"Error performing " ++ pyStr (some s) ++ " on " ++ reprOf te er ++ ": ", ?_⟩
    simp [perform_action, ht, String.append_assoc]
  · intro a ha hv
    simp only [with_value_op, List.mem_cons, List.mem_singleton, List.not_mem_nil,
      or_false] at ha
    rcases ha with rfl | rfl | rfl | rfl | rfl <;>
      refine ⟨?_, ?_⟩ <;>
      simp [perform_action, tryBody, hv, pyStr]
  · intro hsel a ha
    simp only [List.mem_cons, List.mem_singleton, List.not_mem_nil, or_false] at ha
    rcases ha with rfl | rfl | rfl | rfl | rfl <;>
      refine ⟨?_, ?_⟩ <;>
      simp [perform_action, tryBody, hsel, pyStr]
  · rintro rfl rfl
    refine ⟨rfl, rfl, "Error performing CLICK on " ++ er ++ ": ",
      ": CLICK", ?_⟩
    simp [perform_action, tryBody, pyStr, reprOf, selectorOf, String.append_assoc]

/-- Witness for claim C3: TYPE with a missing value, HOVER without a
target, and CLICK without a target, each at a concrete input. -/
theorem C3_no_exception_escape_witness :
    ((perform_action envAllOk [] none (some "TYPE") none "").ok = false ∧
     (perform_action envAllOk [] none (some "TYPE") none "").ret =
       "Error performing " ++ "TYPE" ++ " on " ++ reprOf none "" ++ ": " ++
         ("Unsupported or improperly specified action: " ++ "TYPE")) ∧
    ((perform_action envAllOk [] none (some "HOVER") none "").ok = false ∧
     (perform_action envAllOk [] none (some "HOVER") none "").ret =
       "Error performing " ++ "HOVER" ++ " on " ++ reprOf none "" ++ ": " ++
         ("Unsupported or improperly specified action: " ++ "HOVER")) ∧
    ((perform_action envAllOk [] none (some "CLICK") none "").ok = false ∧
     (perform_action envAllOk [] none (some "CLICK") none "").taken_actions = [] ∧
     ∃ p q, (perform_action envAllOk [] none (some "CLICK") none "").ret =
       p ++ "Unsupported or improperly specified action" ++ q) :=
  ⟨(C3_no_exception_escape envAllOk [] none (some "TYPE") none "").2.2.1
      "TYPE" (by decide) rfl,
   (C3_no_exception_escape envAllOk [] none (some "HOVER") none "").2.2.2.1
      rfl "HOVER" (by decide),
   (C3_no_exception_escape envAllOk [] none (some "CLICK") none "").2.2.2.2 rfl rfl⟩

/-- Claim C5, counterexample: GOTO with a non-empty value but no resolved
handle does not invoke the goto primitive (the None selector dereference
raises first), refuting the part of the claim that exempts GOTO from
needing a resolved target. -/
theorem C5_counterexample :
    pyTruthyStr (some "https://www.example.com") = true ∧
    (perform_action envAllOk [] none (some "GOTO")
      (some "https://www.example.com") "").calls = [] ∧
    (perform_action envAllOk [] none (some "GOTO")
      (some "https://www.example.com") "").ok = false := by
  decide

/-- Claim C5 (amended): a value-bearing action with a missing or empty
value performs no primitive call and yields the unsupported classification;
with a non-empty value and, for TYPE, SELECT and GOTO alike, a resolved
handle, exactly the corresponding primitive is invoked, while MEMORIZE and
SAY complete without any primitive call. -/
theorem C5_value_bearing (env : Prim → Except String Unit) (taken : List String)
    (te : Option TargetElement) (er : String) :
    (∀ v, pyTruthyStr v = false → ∀ a, a ∈ with_value_op →
      (perform_action env taken te (some a) v er).calls = [] ∧
      (perform_action env taken te (some a) v er).ok = false ∧
      (perform_action env taken te (some a) v er).ret =
        "Error performing " ++ a ++ " on " ++ reprOf te er ++ ": " ++
          ("Unsupported or improperly specified action: " ++ a)) ∧
    (∀ s : String, (s == "") = false →
      (selectorOf te = some () →
        (perform_action env taken te (some "TYPE") (some s) er).calls = [Prim.fill s] ∧
        (perform_action env taken te (some "SELECT") (some s) er).calls = [Prim.selectOption s] ∧
        (perform_action env taken te (some "GOTO") (some s) er).calls = [Prim.goto s]) ∧
      ((perform_action env taken te (some "MEMORIZE") (some s) er).calls = [] ∧
       (perform_action env taken te (some "MEMORIZE") (some s) er).ok = true) ∧
      ((perform_action env taken te (some "SAY") (some s) er).calls = [] ∧
       (perform_action env taken te (some "SAY") (some s) er).ok = true)) := by
  constructor
  · intro v hv a ha
    simp only [with_value_op, List.mem_cons, List.mem_singleton, List.not_mem_nil,
      or_false] at ha
    rcases ha with rfl | rfl | rfl | rfl | rfl <;>
      refine ⟨?_, ?_, ?_⟩ <;>
      simp [perform_action, tryBody, hv, pyStr]
  · intro s hs
    refine ⟨?_, ?_, ?_⟩
    · intro hsel
      refine ⟨?_, ?_, ?_⟩ <;>
        { rw [perform_action_calls]
          simp [tryBody, hsel, pyTruthyStr, hs, callOn_some_fst, pyStr] }
    · constructor
      · rw [perform_action_calls]
        simp [tryBody, pyTruthyStr, hs]
      · rw [perform_action_ok]
        simp [tryBody, pyTruthyStr, hs]
    · constructor
      · rw [perform_action_calls]
        simp [tryBody, pyTruthyStr, hs]
      · rw [perform_action_ok]
        simp [tryBody, pyTruthyStr, hs]

/-- Witness for the amended claim C5: TYPE with a missing value at the
concrete empty-history input, and TYPE with a resolved handle and value
hello invoking exactly one fill. -/
theorem C5_value_bearing_witness :
    ((perform_action envAllOk [] none (some "TYPE") none "").calls = [] ∧
     (perform_action envAllOk [] none (some "TYPE") none "").ok = false ∧
     (perform_action envAllOk [] none (some "TYPE") none "").ret =
       "Error performing " ++ "TYPE" ++ " on " ++ reprOf none "" ++ ": " ++
         ("Unsupported or improperly specified action: " ++ "TYPE")) ∧
    (perform_action envAllOk [] (some ⟨some (), none⟩) (some "TYPE")
      (some "hello") "").calls = [Prim.fill "hello"] := by
  refine ⟨?_, ?_⟩
  · exact (C5_value_bearing envAllOk [] none "").1 none rfl "TYPE" (by decide)
  · exact (((C5_value_bearing envAllOk [] (some ⟨some (), none⟩) "").2 "hello" rfl).1 rfl).1

/-- Claim C6: with a resolved handle present, SCROLL DOWN triggers exactly
one evaluate call whose script is the positive half-viewport delta, and
SCROLL UP exactly one evaluate call with the negated delta; but at the
failing input of the code-bug report (no target handle), both scrolls
trigger zero evaluate calls and return an error record instead, because
the page-level scroll is routed through the missing selector. -/
theorem C6_scroll_scripts (env : Prim → Except String Unit) (taken : List String)
    (te : Option TargetElement) (v : Option String) (er : String) :
    (selectorOf te = some () →
      (perform_action env taken te (some "SCROLL DOWN") v er).calls =
        [Prim.evaluate "window.scrollBy(0, window.innerHeight / 2)"] ∧
      (perform_action env taken te (some "SCROLL UP") v er).calls =
        [Prim.evaluate "window.scrollBy(0, -window.innerHeight / 2)"]) ∧
    (selectorOf te = none →
      (perform_action env taken te (some "SCROLL DOWN") v er).calls = [] ∧
      (perform_action env taken te (some "SCROLL DOWN") v er).ok = false ∧
      (perform_action env taken te (some "SCROLL UP") v er).calls = [] ∧
      (perform_action env taken te (some "SCROLL UP") v er).ok = false) := by
  constructor
  · intro hsel
    constructor <;>
      { rw [perform_action_calls]
        simp [tryBody, hsel, callOn_some_fst] }
  · intro hsel
    refine ⟨?_, ?_, ?_, ?_⟩
    · rw [perform_action_calls]
      simp [tryBody, hsel, callOn]
    · rw [perform_action_ok]
      simp [tryBody, hsel, callOn]
    · rw [perform_action_calls]
      simp [tryBody, hsel, callOn]
    · rw [perform_action_ok]
      simp [tryBody, hsel, callOn]

/-- Witness for claim C6: a concrete target element with a handle, and the
concrete no-target failing input. -/
theorem C6_scroll_scripts_witness :
    ((perform_action envAllOk [] (some ⟨some (), none⟩) (some "SCROLL DOWN") none "").calls =
      [Prim.evaluate "window.scrollBy(0, window.innerHeight / 2)"] ∧
     (perform_action envAllOk [] (some ⟨some (), none⟩) (some "SCROLL UP") none "").calls =
      [Prim.evaluate "window.scrollBy(0, -window.innerHeight / 2)"]) ∧
    ((perform_action envAllOk [] none (some "SCROLL DOWN") none "").calls = [] ∧
     (perform_action envAllOk [] none (some "SCROLL DOWN") none "").ok = false ∧
     (perform_action envAllOk [] none (some "SCROLL UP") none "").calls = [] ∧
     (perform_action envAllOk [] none (some "SCROLL UP") none "").ok = false) :=
  ⟨(C6_scroll_scripts envAllOk [] (some ⟨some (), none⟩) none "").1 rfl,
   (C6_scroll_scripts envAllOk [] none none "").2 rfl⟩

/-- Splitting at newlines never yields an empty segment list. -/
theorem splitNl_ne_nil (cs : List Char) : splitNl cs ≠ [] := by
  induction cs with
  | nil => simp [splitNl]
  | cons c cs ih =>
    simp only [splitNl]
    cases h : splitNl cs with
    | nil => simp
    | cons l ls =>
      by_cases hc : c = '\n' <;> simp [hc]

/-- A newline-free segment followed by a newline splits off as one line. -/
theorem splitNl_append_newline (a rest : List Char) (ha : ('\n' : Char) ∉ a) :
    splitNl (a ++ '\n' :: rest) = a :: splitNl rest := by
  induction a with
  | nil =>
    simp only [List.nil_append, splitNl]
    cases h : splitNl rest with
    | nil => exact absurd h (splitNl_ne_nil rest)
    | cons l ls => simp
  | cons c a ih =>
    have hc : c ≠ '\n' := by
      intro e
      exact ha (e ▸ List.mem_cons_self c a)
    have ha2 : ('\n' : Char) ∉ a := fun hm => ha (List.mem_cons_of_mem _ hm)
    rw [List.cons_append]
    simp only [splitNl]
    rw [ih ha2]
    simp [hc]

/-- The character data written by the save loop is the flattened sequence
of newline-terminated action summaries. -/
theorem foldl_write_data (taken : List String) : ∀ init : String,
    (taken.foldl (fun acc a => acc ++ (a ++ "\n")) init).data =
      init.data ++ (taken.map (fun s => s.data ++ ['\n'])).flatten := by
  induction taken with
  | nil => intro init; simp
  | cons t ts ih =>
    intro init
    simp only [List.foldl_cons, List.map_cons, List.flatten_cons]
    rw [ih]
    simp [String.data_append]

/-- Splitting the flattened newline-terminated summaries recovers them, one
segment each, plus the empty trailing segment. -/
theorem splitNl_flatten (taken : List String)
    (h : ∀ s ∈ taken, ('\n' : Char) ∉ s.data) :
    splitNl ((taken.map (fun s => s.data ++ ['\n'])).flatten) =
      (taken.map String.data) ++ [[]] := by
  induction taken with
  | nil => simp [splitNl]
  | cons t ts ih =>
    have ht : ('\n' : Char) ∉ t.data := h t (by simp)
    have hts : ∀ s ∈ ts, ('\n' : Char) ∉ s.data := fun s hs => h s (by simp [hs])
    simp only [List.map_cons, List.flatten_cons, List.append_assoc,
      List.singleton_append]
    rw [splitNl_append_newline t.data _ ht, ih hts]
    simp

/-- For newline-free summaries, the lines of the written file are exactly
the in-memory history, in order. -/
theorem fileLines_writeLines (taken : List String)
    (h : ∀ s ∈ taken, ('\n' : Char) ∉ s.data) :
    fileLines (writeLines taken) = taken := by
  unfold fileLines writeLines
  have hd : (taken.foldl (fun acc a => acc ++ (a ++ "\n")) "").data =
      (taken.map (fun s => s.data ++ ['\n'])).flatten := by
    simpa using foldl_write_data taken ""
  rw [hd, splitNl_flatten taken h, List.dropLast_concat]
  have hmk : ∀ l : List String, (l.map String.data).map String.mk = l := by
    intro l
    induction l with
    | nil => rfl
    | cons a as ih => simp [ih]
  exact hmk taken

/-- Claim C8: saving the history writes, under the configured directory
(default seeact_agent_files, created if absent), a file whose contents
split into exactly the recorded summaries, one line each, in insertion
order; clearing afterwards empties the in-memory log while touching no
file-system state (clear_action_history acts on the history alone). -/
theorem C8_save_and_clear (cfg : Option String) (fs : FS) (taken : List String)
    (filename : String) (h : ∀ s ∈ taken, ('\n' : Char) ∉ s.data) :
    (save_action_history cfg fs taken filename).read
        (cfg.getD "seeact_agent_files" ++ "/" ++ filename) =
      some (writeLines taken) ∧
    fileLines (writeLines taken) = taken ∧
    (fileLines (writeLines taken)).length = taken.length ∧
    (save_action_history cfg fs taken filename).dirs.contains
        (cfg.getD "seeact_agent_files") = true ∧
    clear_action_history taken = [] := by
  refine ⟨?_, fileLines_writeLines taken h,
    by rw [fileLines_writeLines taken h], ?_, rfl⟩
  · by_cases hc : fs.dirs.contains (cfg.getD "seeact_agent_files") <;>
      simp [save_action_history, FS.read, hc]
  · by_cases hc : cfg.getD "seeact_agent_files" ∈ fs.dirs <;>
      simp [save_action_history, hc]

/-- Witness for claim C8: three executed-action summaries saved to the
default file name under the default directory on an empty file system. -/
theorem C8_save_and_clear_witness :
    (∀ s ∈ demoHistory, ('\n' : Char) ∉ s.data) ∧
    ((save_action_history none ⟨[], []⟩ demoHistory "action_history.txt").read
        ((none : Option String).getD "seeact_agent_files" ++ "/" ++
          "action_history.txt") = some (writeLines demoHistory) ∧
     fileLines (writeLines demoHistory) = demoHistory ∧
     (fileLines (writeLines demoHistory)).length = demoHistory.length ∧
     (save_action_history none ⟨[], []⟩ demoHistory "action_history.txt").dirs.contains
        ((none : Option String).getD "seeact_agent_files") = true ∧
     clear_action_history demoHistory = []) := by
  refine ⟨by decide, ?_⟩
  exact C8_save_and_clear none ⟨[], []⟩ demoHistory "action_history.txt" (by decide)

/-- Claim C9: for every task and previous-action list, an absent or empty
choices list renders the literal No choices available placeholder in the
second bundle segment, and a non-empty choices list renders all choices,
newline-joined, in the given order. -/
theorem C9_choices_rendering (prompts : Prompts) (task : Option String)
    (previous : Option (List String)) :
    (∀ choices, pyTruthyList choices = false →
      ∃ p q, (generate_prompt prompts task previous choices).getD 1 "" =
        p ++ "No choices available" ++ q) ∧
    (∀ l : List String, l ≠ [] →
      ∃ p q, (generate_prompt prompts task previous (some l)).getD 1 "" =
        p ++ String.intercalate "\n" l ++ q) := by
  constructor
  · intro choices hch
    refine ⟨prompts.referring_description ++ "\nChoices:\n",
      "\n\n" ++ prompts.element_format ++ "\n" ++ prompts.action_format ++ "\n" ++
        prompts.value_format, ?_⟩
    simp only [generate_prompt, generate_new_query_prompt,
      generate_new_referring_prompt]
    rw [if_neg (by simp [hch])]
    simp only [List.cons_append, List.nil_append, List.getD_cons_succ,
      List.getD_cons_zero, String.append_assoc]
  · intro l hl
    have hch : pyTruthyList (some l) = true := by
      cases l with
      | nil => exact absurd rfl hl
      | cons a as => rfl
    refine ⟨prompts.referring_description ++ "\nChoices:\n",
      "\n\n" ++ prompts.element_format ++ "\n" ++ prompts.action_format ++ "\n" ++
        prompts.value_format, ?_⟩
    simp only [generate_prompt, generate_new_query_prompt,
      generate_new_referring_prompt]
    rw [if_pos (by simp [hch])]
    simp only [List.cons_append, List.nil_append, List.getD_cons_succ,
      List.getD_cons_zero, String.append_assoc, Option.getD_some]

/-- Witness for claim C9: the empty choices list on the initial prompts,
and a concrete three-element choice list. -/
theorem C9_choices_rendering_witness :
    (∃ p q, (generate_prompt initialize_prompts (some "Find X") (some []) (some [])).getD 1 "" =
      p ++ "No choices available" ++ q) ∧
    (∃ p q, (generate_prompt initialize_prompts (some "Find X") (some [])
        (some ["A. one", "B. two", "C. three"])).getD 1 "" =
      p ++ String.intercalate "\n" ["A. one", "B. two", "C. three"] ++ q) :=
  ⟨(C9_choices_rendering initialize_prompts (some "Find X") (some [])).1 (some []) rfl,
   (C9_choices_rendering initialize_prompts (some "Find X") (some [])).2
     ["A. one", "B. two", "C. three"] (by simp)⟩

end WebAct
